import Mathlib

/-!
Verification development for the dooftrack repository.

Shallow embedding of:
  * the service worker's fetch dispatcher and its per-route caching
    strategies (src/public/service-worker.js),
  * the persistence client over the two related tables `manhwa` and
    `reading_progress` (src/services/store.ts),
  * the MangaDex catalog client, its rate-limit gate and its error
    policy (src/unnamed/part_001),
  * the notification-settings local-storage round trip
    (src/services/notifications.ts).

JavaScript machine details are modelled explicitly: `Option` stands for
`undefined`/`null`, `Except` for thrown exceptions, and the JS truthiness
of `x || d` on strings is the function `jsOrStr` below.  Times are
naturals (milliseconds).  JSON documents stored by this application are
flat objects of primitive values, so the `Json` type below covers
exactly that shape.
-/

namespace DoofTrack

/-- JSON primitive values (the leaves JSON.stringify can produce here). -/
inductive JsonPrim where
  | null
  | bool (b : Bool)
  | num (n : Int)
  | str (s : String)
deriving DecidableEq

/-- JSON documents as this application serializes them: a primitive or a
flat object of primitives. -/
inductive Json where
  | prim (p : JsonPrim)
  | obj (fields : List (String × JsonPrim))
deriving DecidableEq

/-- List-level check that `pat` is an initial segment of `s`. -/
def leadsWith : List Char → List Char → Bool
  | [], _ => true
  | _ :: _, [] => false
  | a :: as, b :: bs => a == b && leadsWith as bs

/-- List-level check that `pat` occurs contiguously inside `s`. -/
def occursIn (pat : List Char) : List Char → Bool
  | [] => pat.isEmpty
  | c :: rest => leadsWith pat (c :: rest) || occursIn pat rest

/-- JavaScript `s.startsWith(p)`. -/
def jsStartsWith (s p : String) : Bool := leadsWith p.data s.data

/-- JavaScript `s.includes(p)`. -/
def jsIncludes (s p : String) : Bool := occursIn p.data s.data

/-- JavaScript `x || d` for a possibly-undefined string `x`: both
`undefined` and the empty string are falsy and select the default. -/
def jsOrStr (x : Option String) (d : String) : String :=
  match x with
  | none => d
  | some s => if s = "" then d else s

/-- JavaScript `a || b` where both operands are possibly-undefined
strings (empty string falsy). -/
def jsOrOpt (a b : Option String) : Option String :=
  match a with
  | none => b
  | some s => if s = "" then b else some s

namespace SW

/-- The parts of a fetch-event request the service worker inspects:
`url.pathname`, `request.destination`, and `request.headers.get('accept')`
(`none` when the request carries no Accept header). -/
structure Request where
  pathname : String
  destination : String
  accept : Option String
deriving DecidableEq

/-- An HTTP response as the worker observes it: status, the
Content-Type header, and the body (as the JSON document it parses to,
or an opaque payload tagged by a number). -/
structure Response where
  status : Nat
  contentType : Option String
  body : Json
deriving DecidableEq

/-- Outcome of `fetch(request)`: the promise resolves with a response or
rejects (network failure / offline). -/
inductive FetchOutcome where
  | success (r : Response)
  | failure
deriving DecidableEq

/-- The synthesized offline response of Strategy 2:
`new Response(JSON.stringify .. , status 503, Content-Type application/json)`. -/
def offlineResponse : Response :=
  { status := 503
    contentType := some "application/json"
    body := Json.obj
      [("error", JsonPrim.str "offline"),
       ("message", JsonPrim.str "You are offline and this data is not cached")] }

/-- One named cache: an association of requests to stored responses. -/
abbrev Cache := List (Request × Response)

/-- `cache.match(request)`: the stored response for this exact request. -/
def cacheMatch (c : Cache) (req : Request) : Option Response :=
  (c.find? (fun e => e.1 == req)).map (·.2)

/-- `cache.put(request, response)`: store, overwriting any entry for the
same request. -/
def cachePut (c : Cache) (req : Request) (r : Response) : Cache :=
  if c.any (fun e => e.1 == req) then
    c.map (fun e => if e.1 == req then (req, r) else e)
  else
    c ++ [(req, r)]

/-- The three named cache partitions of the worker
(`dooftrack-static-v1`, `dooftrack-covers-v1`, `dooftrack-api-v1`). -/
structure CacheStorage where
  staticCache : Cache
  coverCache : Cache
  apiCache : Cache
deriving DecidableEq

/-- `caches.match(request)`: search every cache partition, in creation
order. -/
def cachesMatch (cs : CacheStorage) (req : Request) : Option Response :=
  match cacheMatch cs.staticCache req with
  | some r => some r
  | none =>
    match cacheMatch cs.coverCache req with
    | some r => some r
    | none => cacheMatch cs.apiCache req

/-- Strategy 1 (cover images, stale-while-revalidate), for one request:
look the request up in the cover cache; start the background refetch,
which writes through to the cover cache only on status 200 and on
rejection resolves to the (possibly absent) cached response; respond
with the cached response when present, otherwise with whatever the
fetch produced (`none` models `respondWith(undefined)`).
The returned pair is (response delivered, cache storage afterwards). -/
def handleCoverSWR (cs : CacheStorage) (req : Request) (net : FetchOutcome) :
    Option Response × CacheStorage :=
  let cached := cacheMatch cs.coverCache req
  let cs' := match net with
    | .success r =>
        if r.status = 200 then
          { cs with coverCache := cachePut cs.coverCache req r }
        else cs
    | .failure => cs
  match cached with
  | some c => (some c, cs')
  | none =>
    match net with
    | .success r => (some r, cs')
    | .failure => (none, cs')

/-- Strategy 2 (MangaDex API, network-first): try the network; on
success cache status-200 responses into the API cache and return the
network response; on rejection fall back to `caches.match(request)`,
else synthesize the fixed offline 503 response. -/
def handleApiNetworkFirst (cs : CacheStorage) (req : Request) (net : FetchOutcome) :
    Response × CacheStorage :=
  match net with
  | .success r =>
      (r, if r.status = 200 then { cs with apiCache := cachePut cs.apiCache req r } else cs)
  | .failure =>
      match cachesMatch cs req with
      | some cached => (cached, cs)
      | none => (offlineResponse, cs)

/-- The five outcomes of the fetch listener's dispatch chain. -/
inductive Strategy where
  | coverSWR
  | apiNetworkFirst
  | staticCacheFirst
  | htmlNetworkFirst
  | networkOnly
deriving DecidableEq

/-- The fetch listener's dispatch, rule by rule in source order.  Rule 4
evaluates `request.headers.get('accept').includes('text/html')`; when the
request has no Accept header, `headers.get('accept')` is `null` and the
member access throws a TypeError, modelled as `Except.error ()`. -/
def classifyFetch (req : Request) : Except Unit Strategy :=
  if jsStartsWith req.pathname "/api/cover/" then .ok .coverSWR
  else if jsStartsWith req.pathname "/api/mangadex/" then .ok .apiNetworkFirst
  else if req.destination == "script" || req.destination == "style" ||
          req.destination == "font" || jsStartsWith req.pathname "/assets/" then
    .ok .staticCacheFirst
  else if req.destination == "document" then .ok .htmlNetworkFirst
  else
    match req.accept with
    | none => .error ()
    | some a => if jsIncludes a "text/html" then .ok .htmlNetworkFirst else .ok .networkOnly

end SW

namespace Store

/-- A row of the `manhwa` table (library entries).  `last_chapter` is a
nullable numeric column; the app only ever stores whole chapter counts,
modelled as naturals. -/
structure ManhwaRow where
  id : String
  user_id : String
  source_id : String
  title : String
  cover_url : String
  description : String
  last_chapter : Option Nat
deriving DecidableEq

/-- A row of the `reading_progress` table, one-to-one with a library
entry via `manhwa_id`. -/
structure ProgressRow where
  id : String
  manhwa_id : String
  status : String
  last_chapter : Nat
  rating : Nat
  notes : String
deriving DecidableEq

/-- The backing store: the two related tables. -/
structure DB where
  manhwa : List ManhwaRow
  reading_progress : List ProgressRow
deriving DecidableEq

/-- The `updates` argument of `updateProgress` (`Partial<UserProgress>`):
each field possibly absent. -/
structure ProgressUpdates where
  status : Option String
  last_chapter : Option Nat
  rating : Option Nat
  notes : Option String
deriving DecidableEq

/-- JavaScript `x ?? d` (nullish coalescing) for numbers: only
`null`/`undefined` selects the default, `0` does not. -/
def jsNullishNat (x : Option Nat) (d : Nat) : Nat := x.getD d

/-- JavaScript `x ?? d` for strings: only `null`/`undefined` selects the
default, the empty string does not. -/
def jsNullishStr (x : Option String) (d : String) : String := x.getD d

/-- JavaScript `x || null` on the numeric `lastChapter` of an inserted
manhwa: `0`, `null` and `undefined` all become `null`. -/
def jsOrNullNat (x : Option Nat) : Option Nat :=
  match x with
  | none => none
  | some n => if n = 0 then none else some n

/-- `updateProgress(manhwaId, updates)`: a single upsert on
`reading_progress` with `onConflict: 'manhwa_id'`.  The payload is built
from `updates` alone: `updates.status || 'Plan to Read'`,
`updates.last_chapter ?? 0`, `updates.rating ?? 0`, `updates.notes ?? ''`.
If a row for `manhwaId` exists its non-key fields are replaced, else a
fresh row (id `freshId`) is inserted.  Returns the new store and the row
the upsert produced (`.select().single()`). -/
def updateProgress (db : DB) (manhwaId : String) (u : ProgressUpdates)
    (freshId : String) : DB × Option ProgressRow :=
  let st := jsOrStr u.status "Plan to Read"
  let lc := jsNullishNat u.last_chapter 0
  let rt := jsNullishNat u.rating 0
  let nt := jsNullishStr u.notes ""
  if db.reading_progress.any (fun r => r.manhwa_id == manhwaId) then
    let rp := db.reading_progress.map (fun r =>
      if r.manhwa_id == manhwaId then
        { r with status := st, last_chapter := lc, rating := rt, notes := nt }
      else r)
    ({ db with reading_progress := rp }, rp.find? (fun r => r.manhwa_id == manhwaId))
  else
    let row : ProgressRow :=
      { id := freshId, manhwa_id := manhwaId, status := st,
        last_chapter := lc, rating := rt, notes := nt }
    ({ db with reading_progress := db.reading_progress ++ [row] }, some row)

/-- The `manhwa` argument of `addToLibrary` (catalog search result). -/
structure ManhwaInput where
  source_id : String
  title : String
  cover_url : String
  description : String
  lastChapter : Option Nat
deriving DecidableEq

/-- Second half of `addToLibrary`: if no `reading_progress` row exists
for `manhwaId`, insert one with the given status and the fixed defaults
(last_chapter 0, rating 0, notes ''). -/
def addProgressIfMissing (db : DB) (manhwaId status freshProgressId : String) : DB :=
  match db.reading_progress.find? (fun r => r.manhwa_id == manhwaId) with
  | some _ => db
  | none =>
      { db with reading_progress := db.reading_progress ++
          [{ id := freshProgressId, manhwa_id := manhwaId, status := status,
             last_chapter := 0, rating := 0, notes := "" }] }

/-- `addToLibrary(manhwa, status)` for the authenticated user `userId`:
look the `(user_id, source_id)` pair up with `maybeSingle()`; reuse the
existing entry's id, or insert a new `manhwa` row with fresh id
`freshManhwaId`; then ensure a progress row exists.  Returns the new
store and the returned database id. -/
def addToLibrary (db : DB) (userId : String) (m : ManhwaInput) (status : String)
    (freshManhwaId freshProgressId : String) : DB × String :=
  match db.manhwa.find? (fun r => r.user_id == userId && r.source_id == m.source_id) with
  | some row =>
      (addProgressIfMissing db row.id status freshProgressId, row.id)
  | none =>
      let newRow : ManhwaRow :=
        { id := freshManhwaId, user_id := userId, source_id := m.source_id,
          title := m.title, cover_url := m.cover_url, description := m.description,
          last_chapter := jsOrNullNat m.lastChapter }
      let db1 : DB := { db with manhwa := db.manhwa ++ [newRow] }
      (addProgressIfMissing db1 freshManhwaId status freshProgressId, freshManhwaId)

/-- Which of the two delete calls inside `removeFromLibrary` report an
error (the Supabase client returns an error value rather than throwing;
a failed delete leaves its table unchanged). -/
structure DeleteOutcome where
  progressDeleteFails : Bool
  manhwaDeleteFails : Bool
deriving DecidableEq

/-- `removeFromLibrary(id)`: delete the progress rows for `id` — on
error only `console.error`, execution continues — then delete the
`manhwa` row; an error there is thrown.  Returns the resulting store
and whether the call threw. -/
def removeFromLibrary (db : DB) (id : String) (o : DeleteOutcome) : DB × Bool :=
  let db1 :=
    if o.progressDeleteFails then db
    else { db with reading_progress :=
            db.reading_progress.filter (fun r => !(r.manhwa_id == id)) }
  if o.manhwaDeleteFails then (db1, true)
  else ({ db1 with manhwa := db1.manhwa.filter (fun m => !(m.id == id)) }, false)

/-- Referential integrity of the store: every progress row points at an
existing library entry. -/
def noOrphanRows (db : DB) : Bool :=
  db.reading_progress.all (fun r => db.manhwa.any (fun mr => mr.id == r.manhwa_id))

end Store

namespace MD

/-- `MIN_REQUEST_INTERVAL = 200` ms (5 requests per second). -/
def MIN_REQUEST_INTERVAL : Nat := 200

/-- The time at which a call to `rateLimitedFetch` dispatches its fetch,
given the `lastRequestTime` checkpoint it read (`last`) and the time it
began (`now`): if `now - lastRequestTime < MIN_REQUEST_INTERVAL` the call
awaits the remaining delta, otherwise it proceeds at once.  On waking
(or immediately) it sets `lastRequestTime` to the dispatch time and
issues the fetch. -/
def gateWake (last now : Nat) : Nat :=
  if now - last < MIN_REQUEST_INTERVAL then
    now + (MIN_REQUEST_INTERVAL - (now - last))
  else now

/-- Event-loop execution of two calls to `rateLimitedFetch`, the first
beginning at `s1`, the second at `s2` (with `s1 ≤ s2`), from checkpoint
`last0`.  Each call reads the checkpoint once when it begins; a call
that must wait does not re-read it on waking (mirroring the source,
which has no re-check after the `setTimeout`).  A call beginning while
an earlier call is still awaiting therefore reads the stale checkpoint.
Returns (dispatch time of call 1, dispatch time of call 2, final
checkpoint). -/
def runTwoCalls (last0 s1 s2 : Nat) : Nat × Nat × Nat :=
  if s1 - last0 < MIN_REQUEST_INTERVAL then
    let w1 := gateWake last0 s1
    if s2 < w1 then
      -- call 2 begins during call 1's wait and reads the stale checkpoint
      let w2 := gateWake last0 s2
      (w1, w2, max w1 w2)
    else
      -- call 1 already dispatched and recorded w1 when call 2 begins
      let w2 := gateWake w1 s2
      (w1, w2, w2)
  else
    -- call 1 dispatches synchronously at s1 and records s1
    let w2 := gateWake s1 s2
    (s1, w2, w2)

/-- A relationship entry of a MangaDex item; `attrFileName` is
`rel.attributes?.fileName` (absent when either level is missing). -/
structure MDRelationship where
  id : String
  type : String
  attrFileName : Option String
deriving DecidableEq

/-- The attributes of a MangaDex item: localized title and description
maps (association lists in enumeration order), creation timestamp, and
the optional `lastChapter` string. -/
structure MDAttributes where
  title : List (String × String)
  description : Option (List (String × String))
  createdAt : String
  lastChapter : Option String
deriving DecidableEq

/-- One item of a MangaDex API response. -/
structure MangaDexResult where
  id : String
  attributes : MDAttributes
  relationships : List MDRelationship
deriving DecidableEq

/-- The flat record shape the client returns.  The source computes
`lastChapter` as `parseFloat` of the raw attribute string when that
string is truthy; the numeric conversion is kept as the raw string here
(floating point is outside this model and unused by the properties
below). -/
structure Manhwa where
  id : String
  title : String
  description : String
  source_id : String
  created_at : String
  cover_url : String
  lastChapterRaw : Option String
deriving DecidableEq

/-- `titleObj.en || titleObj['ja-ro'] || Object.values(titleObj)[0] ||
'Unknown Title'`. -/
def locLookup (m : List (String × String)) (k : String) : Option String :=
  (m.find? (fun p => p.1 == k)).map (·.2)

def extractTitle (t : List (String × String)) : String :=
  jsOrStr (jsOrOpt (locLookup t "en")
    (jsOrOpt (locLookup t "ja-ro") (t.head?.map (·.2)))) "Unknown Title"

/-- `descObj.en || Object.values(descObj)[0] || 'No description
available.'`, with the whole map possibly undefined. -/
def extractDescription (d : Option (List (String × String))) : String :=
  match d with
  | none => "No description available."
  | some m =>
      jsOrStr (jsOrOpt (locLookup m "en") (m.head?.map (·.2))) "No description available."

/-- `buildCoverUrl(mangaId, fileName, size)`. -/
def buildCoverUrl (mangaId fileName size : String) : String :=
  if size = "original" then
    "https://uploads.mangadex.org/covers/" ++ mangaId ++ "/" ++ fileName
  else
    "https://uploads.mangadex.org/covers/" ++ mangaId ++ "/" ++ fileName
      ++ "." ++ size ++ ".jpg"

/-- Outcome of an awaited `fetch`: the promise rejects, or resolves with
a status and a body that either parses to `α` or fails to parse
(`response.json()` rejects). -/
inductive FetchResult (α : Type) where
  | reject
  | resp (status : Nat) (body : Option α)
deriving DecidableEq

/-- `response.ok`: status in the range 200–299. -/
def respOk (status : Nat) : Bool := 200 ≤ status && status < 300

/-- The map applied to each item of a search response (cover size 256,
placeholder URL when no cover-art relationship carries a file name). -/
def mapSearchItem (item : MangaDexResult) : Manhwa :=
  let fileName := (item.relationships.find? (fun r => r.type == "cover_art")).bind
    (·.attrFileName)
  { id := item.id
    title := extractTitle item.attributes.title
    description := extractDescription item.attributes.description
    source_id := item.id
    created_at := item.attributes.createdAt
    cover_url :=
      match fileName with
      | some fn => buildCoverUrl item.id fn "256"
      | none => "https://via.placeholder.com/300x450?text=No+Cover"
    lastChapterRaw := none }

/-- The map applied to the single item of a details response (cover
size 512; `lastChapter` kept when the attribute string is truthy). -/
def mapDetailItem (item : MangaDexResult) : Manhwa :=
  let fileName := (item.relationships.find? (fun r => r.type == "cover_art")).bind
    (·.attrFileName)
  { id := item.id
    title := extractTitle item.attributes.title
    description := extractDescription item.attributes.description
    source_id := item.id
    created_at := item.attributes.createdAt
    cover_url :=
      match fileName with
      | some fn => buildCoverUrl item.id fn "512"
      | none => "https://via.placeholder.com/300x450?text=No+Cover"
    lastChapterRaw :=
      match item.attributes.lastChapter with
      | some s => if s = "" then none else some s
      | none => none }

/-- `searchMangaDex(query, options)` for a given network outcome `r`.
With neither a query nor included tags it returns `[]` before any
fetch.  The `try` block throws on a non-ok response and on a body that
fails to parse; the `catch` converts every throw to `[]`. -/
def searchMangaDex (query : String) (hasIncludedTags : Bool)
    (r : FetchResult (List MangaDexResult)) : List Manhwa :=
  if query = "" && !hasIncludedTags then []
  else
    let attempt : Except String (List Manhwa) :=
      match r with
      | .reject => .error "network error"
      | .resp status body =>
          if !(respOk status) then .error "Failed to fetch from MangaDex"
          else
            match body with
            | none => .error "json parse error"
            | some data => .ok (data.map mapSearchItem)
    match attempt with
    | .ok v => v
    | .error _ => []

/-- `getMangaById(mangaId)` for a given network outcome `r`.  A 404
returns `null` directly; any other non-ok response or a parse failure
throws inside the `try`, and the `catch` converts the throw to `null`. -/
def getMangaById (r : FetchResult MangaDexResult) : Option Manhwa :=
  let attempt : Except String (Option Manhwa) :=
    match r with
    | .reject => .error "network error"
    | .resp status body =>
        if !(respOk status) then
          if status = 404 then .ok none else .error "Failed to fetch manga"
        else
          match body with
          | none => .error "json parse error"
          | some item => .ok (some (mapDetailItem item))
  match attempt with
  | .ok v => v
  | .error _ => none

/-- A failed network interaction: the fetch rejected, the response was
non-success, or the body failed to parse. -/
def fetchFailed {α : Type} : FetchResult α → Prop
  | .reject => True
  | .resp status body => respOk status = false ∨ body = none

instance {α : Type} [DecidableEq α] (r : FetchResult α) : Decidable (fetchFailed r) := by
  cases r with
  | reject => exact isTrue trivial
  | resp status body => exact inferInstanceAs (Decidable (_ ∨ _))

end MD

namespace Notif

/-- The notification settings object (six fields). -/
structure NotificationSettings where
  enabled : Bool
  dailyReminder : Bool
  reminderTime : String
  streakReminders : Bool
  goalMilestones : Bool
  continueReadingSuggestions : Bool
deriving DecidableEq

def DEFAULT_SETTINGS : NotificationSettings :=
  { enabled := false, dailyReminder := true, reminderTime := "19:00",
    streakReminders := true, goalMilestones := true,
    continueReadingSuggestions := true }

def NOTIFICATION_SETTINGS_KEY : String := "dooftrack_notification_settings"

/-- Local storage as a map from keys to stored JSON text, represented
by the document the text parses to (`JSON.stringify` and `JSON.parse`
are mutually inverse between these objects and their texts). -/
abbrev LocalStorage := List (String × Json)

/-- `localStorage.setItem(k, v)` (overwrite semantics: a later write for
the same key shadows earlier ones). -/
def setItem (ls : LocalStorage) (k : String) (v : Json) : LocalStorage :=
  (k, v) :: ls.filter (fun e => !(e.1 == k))

/-- `localStorage.getItem(k)`: the stored value, or `null`. -/
def getItem (ls : LocalStorage) (k : String) : Option Json :=
  (ls.find? (fun e => e.1 == k)).map (·.2)

/-- `JSON.stringify(settings)`: the JSON document written, fields in
declaration order. -/
def stringifySettings (s : NotificationSettings) : Json :=
  .obj [("enabled", .bool s.enabled),
        ("dailyReminder", .bool s.dailyReminder),
        ("reminderTime", .str s.reminderTime),
        ("streakReminders", .bool s.streakReminders),
        ("goalMilestones", .bool s.goalMilestones),
        ("continueReadingSuggestions", .bool s.continueReadingSuggestions)]

/-- Property access on a parsed JSON document. -/
def jsonField (j : Json) (k : String) : Option JsonPrim :=
  match j with
  | .obj fs => (fs.find? (fun e => e.1 == k)).map (·.2)
  | .prim _ => none

def asBool : Option JsonPrim → Option Bool
  | some (.bool b) => some b
  | _ => none

def asStr : Option JsonPrim → Option String
  | some (.str s) => some s
  | _ => none

/-- Reading the six settings fields back out of a parsed document
(`none` when a field is missing or has the wrong type). -/
def parseSettings (j : Json) : Option NotificationSettings :=
  match asBool (jsonField j "enabled"), asBool (jsonField j "dailyReminder"),
        asStr (jsonField j "reminderTime"), asBool (jsonField j "streakReminders"),
        asBool (jsonField j "goalMilestones"),
        asBool (jsonField j "continueReadingSuggestions") with
  | some e, some d, some rt, some sr, some gm, some crs =>
      some ⟨e, d, rt, sr, gm, crs⟩
  | _, _, _, _, _, _ => none

/-- `saveNotificationSettings(settings)`. -/
def saveNotificationSettings (ls : LocalStorage) (s : NotificationSettings) :
    LocalStorage :=
  setItem ls NOTIFICATION_SETTINGS_KEY (stringifySettings s)

/-- `getNotificationSettings()`: parse the stored blob, or fall back to
the defaults when nothing is stored. -/
def getNotificationSettings (ls : LocalStorage) : Option NotificationSettings :=
  match getItem ls NOTIFICATION_SETTINGS_KEY with
  | none => some DEFAULT_SETTINGS
  | some j => parseSettings j

end Notif

/-! Helper lemmas shared by the claim theorems. -/

/-- A path that starts with the catalog-proxy route prefix cannot also
start with the image-proxy route prefix (they differ at the sixth
character). -/
theorem jsStartsWith_mangadex_not_cover (s : String)
    (h : jsStartsWith s "/api/mangadex/" = true) :
    jsStartsWith s "/api/cover/" = false := by
  unfold jsStartsWith at h ⊢
  have hm : "/api/mangadex/".data =
      ['/', 'a', 'p', 'i', '/', 'm', 'a', 'n', 'g', 'a', 'd', 'e', 'x', '/'] := by decide
  have hc : "/api/cover/".data =
      ['/', 'a', 'p', 'i', '/', 'c', 'o', 'v', 'e', 'r', '/'] := by decide
  rw [hm] at h
  rw [hc]
  rcases hl : s.data with _ | ⟨a, _ | ⟨b, _ | ⟨c, _ | ⟨d, _ | ⟨e, _ | ⟨f, l⟩⟩⟩⟩⟩⟩ <;>
    rw [hl] at h <;> simp_all [leadsWith]
  obtain ⟨-, -, -, -, -, hf, -⟩ := h
  intro _ _ _ _ _ hcf
  rw [← hcf] at hf
  exact absurd hf (by decide)

/-- C1: for a request whose URL path starts with `/api/mangadex/`, the
dispatcher selects the network-first strategy; when the network fetch
rejects and no cache holds a response for the exact request, the
handler returns the synthesized offline response, whose status is 503,
whose Content-Type is `application/json` and whose body is the JSON
object with `error = "offline"` and the fixed message; when some cache
holds a response for the request, that cached response is returned
instead. -/
theorem apiNetworkFirst_offline_fallback (cs : SW.CacheStorage) (req : SW.Request)
    (h : jsStartsWith req.pathname "/api/mangadex/" = true) :
    SW.classifyFetch req = .ok .apiNetworkFirst ∧
    (SW.cachesMatch cs req = none →
      SW.handleApiNetworkFirst cs req .failure = (SW.offlineResponse, cs) ∧
      SW.offlineResponse.status = 503 ∧
      SW.offlineResponse.contentType = some "application/json" ∧
      SW.offlineResponse.body = Json.obj
        [("error", JsonPrim.str "offline"),
         ("message", JsonPrim.str "You are offline and this data is not cached")]) ∧
    (∀ c, SW.cachesMatch cs req = some c →
      SW.handleApiNetworkFirst cs req .failure = (c, cs)) := by
  refine ⟨?_, ?_, ?_⟩
  · have hcov := jsStartsWith_mangadex_not_cover req.pathname h
    simp [SW.classifyFetch, hcov, h]
  · intro hn
    exact ⟨by simp [SW.handleApiNetworkFirst, hn], rfl, rfl, rfl⟩
  · intro c hc
    simp [SW.handleApiNetworkFirst, hc]

/-- Witness for C1 at a concrete request and empty cache storage. -/
theorem apiNetworkFirst_offline_fallback_witness :
    jsStartsWith "/api/mangadex/manga" "/api/mangadex/" = true ∧
    SW.classifyFetch ⟨"/api/mangadex/manga", "", none⟩ = .ok .apiNetworkFirst :=
  ⟨by decide,
   (apiNetworkFirst_offline_fallback ⟨[], [], []⟩ ⟨"/api/mangadex/manga", "", none⟩
      (by decide)).1⟩

/-- C2: for a request whose URL path starts with `/api/cover/`, the
dispatcher selects the stale-while-revalidate strategy; when the cover
cache holds a response for the request, that cached response is
delivered whatever the network does (so without awaiting it), the
background refetch overwrites the cache entry exactly when the network
response has status 200, and a rejected refetch leaves the cache
storage unchanged. -/
theorem coverSWR_stale_while_revalidate (cs : SW.CacheStorage) (req : SW.Request)
    (c : SW.Response) (h : jsStartsWith req.pathname "/api/cover/" = true)
    (hc : SW.cacheMatch cs.coverCache req = some c) :
    SW.classifyFetch req = .ok .coverSWR ∧
    (∀ net, (SW.handleCoverSWR cs req net).1 = some c) ∧
    (SW.handleCoverSWR cs req .failure).2 = cs ∧
    (∀ r, r.status = 200 →
      (SW.handleCoverSWR cs req (.success r)).2.coverCache =
        SW.cachePut cs.coverCache req r) ∧
    (∀ r, r.status ≠ 200 → (SW.handleCoverSWR cs req (.success r)).2 = cs) := by
  refine ⟨?_, ?_, ?_, ?_, ?_⟩
  · simp [SW.classifyFetch, h]
  · intro net
    cases net with
    | success r =>
        by_cases hs : r.status = 200 <;> simp [SW.handleCoverSWR, hc, hs]
    | failure => simp [SW.handleCoverSWR, hc]
  · simp [SW.handleCoverSWR, hc]
  · intro r hs
    simp [SW.handleCoverSWR, hc, hs]
  · intro r hs
    simp [SW.handleCoverSWR, hc, hs]

/-- Witness for C2 at a concrete request with a one-entry cover cache. -/
theorem coverSWR_stale_while_revalidate_witness :
    (SW.handleCoverSWR
        ⟨[], [(⟨"/api/cover/x/y.jpg", "image", none⟩,
               ⟨200, some "image/jpeg", Json.prim (JsonPrim.str "img")⟩)], []⟩
        ⟨"/api/cover/x/y.jpg", "image", none⟩ .failure).1 =
      some ⟨200, some "image/jpeg", Json.prim (JsonPrim.str "img")⟩ :=
  ((coverSWR_stale_while_revalidate
      ⟨[], [(⟨"/api/cover/x/y.jpg", "image", none⟩,
             ⟨200, some "image/jpeg", Json.prim (JsonPrim.str "img")⟩)], []⟩
      ⟨"/api/cover/x/y.jpg", "image", none⟩
      ⟨200, some "image/jpeg", Json.prim (JsonPrim.str "img")⟩
      (by decide) (by decide)).2.1) .failure

/-- C9: the fetch dispatch is not total.  A request that falls through
rules 1–3, whose destination is not `document`, and that carries no
Accept header makes rule 4 evaluate `null.includes('text/html')`, a
thrown TypeError; consequently the pass-through branch is reached only
by requests that carry an Accept header. -/
theorem fetch_dispatch_accept_guard (req : SW.Request)
    (h1 : jsStartsWith req.pathname "/api/cover/" = false)
    (h2 : jsStartsWith req.pathname "/api/mangadex/" = false)
    (h3 : (req.destination == "script") = false)
    (h4 : (req.destination == "style") = false)
    (h5 : (req.destination == "font") = false)
    (h6 : jsStartsWith req.pathname "/assets/" = false)
    (h7 : (req.destination == "document") = false)
    (h8 : req.accept = none) :
    SW.classifyFetch req = .error () ∧
    (∀ r : SW.Request, SW.classifyFetch r = .ok .networkOnly → r.accept.isSome = true) := by
  constructor
  · simp [SW.classifyFetch, h1, h2, h3, h4, h5, h6, h7, h8]
  · intro r hr
    cases hacc : r.accept with
    | some a => rfl
    | none =>
        exfalso
        unfold SW.classifyFetch at hr
        rw [hacc] at hr
        split_ifs at hr <;> simp_all

/-- Witness for C9 at a concrete Accept-less image request. -/
theorem fetch_dispatch_accept_guard_witness :
    SW.classifyFetch ⟨"/foo.png", "image", none⟩ = .error () :=
  (fetch_dispatch_accept_guard ⟨"/foo.png", "image", none⟩ (by decide) (by decide)
    (by decide) (by decide) (by decide) (by decide) (by decide) rfl).1

/-- Reading a key back right after writing it yields the written value. -/
theorem getItem_setItem (ls : Notif.LocalStorage) (k : String) (v : Json) :
    Notif.getItem (Notif.setItem ls k v) k = some v := by
  simp [Notif.getItem, Notif.setItem, List.find?_cons]

/-- C8: a notification settings object round-trips through the
local-storage serialization: after `saveNotificationSettings`,
`getNotificationSettings` recovers every one of the six fields
unchanged, from any prior local-storage contents. -/
theorem notificationSettings_roundtrip (ls : Notif.LocalStorage)
    (s : Notif.NotificationSettings) :
    Notif.getNotificationSettings (Notif.saveNotificationSettings ls s) = some s := by
  unfold Notif.getNotificationSettings Notif.saveNotificationSettings
  rw [getItem_setItem]
  cases s
  rfl

/-- C6: the catalog client swallows every failure: whenever the fetch
rejects, the response is non-success, or the body fails to parse, the
list operation `searchMangaDex` returns `[]` and the single-item lookup
`getMangaById` returns `null`; neither propagates a raised error (both
are total functions into plain values). -/
theorem catalogClient_swallows_errors (query : String) (tags : Bool)
    (r : MD.FetchResult (List MD.MangaDexResult))
    (r' : MD.FetchResult MD.MangaDexResult)
    (h : MD.fetchFailed r) (h' : MD.fetchFailed r') :
    MD.searchMangaDex query tags r = [] ∧ MD.getMangaById r' = none := by
  constructor
  · unfold MD.searchMangaDex
    split
    · rfl
    · cases r with
      | reject => rfl
      | resp status body =>
          unfold MD.fetchFailed at h
          rcases h with hok | hb
          · simp [hok]
          · subst hb
            by_cases hok : MD.respOk status <;> simp [hok]
  · unfold MD.getMangaById
    cases r' with
    | reject => rfl
    | resp status body =>
        unfold MD.fetchFailed at h'
        rcases h' with hok | hb
        · simp only [hok]
          by_cases h404 : status = 404 <;> simp [h404]
        · subst hb
          by_cases hok : MD.respOk status
          · simp [hok]
          · simp only [Bool.not_eq_true] at hok
            simp only [hok]
            by_cases h404 : status = 404 <;> simp [h404]

/-- Witness for C6: a rejected search fetch and a 500 details response
with an unparsable body. -/
theorem catalogClient_swallows_errors_witness :
    MD.searchMangaDex "solo leveling" false .reject = [] ∧
    MD.getMangaById (.resp 500 none) = none :=
  catalogClient_swallows_errors "solo leveling" false .reject (.resp 500 none)
    (by decide) (by decide)

/-- C7 counterexample: two overlapping calls from checkpoint 0, begun at
50 ms and 60 ms, both read the stale checkpoint and both dispatch at
200 ms; the second fetch is dispatched 0 ms — not at least 200 ms —
after the checkpoint the first call records at its dispatch. -/
theorem rateLimit_overlap_counterexample :
    MD.runTwoCalls 0 50 60 = (200, 200, 200) ∧
    (MD.runTwoCalls 0 50 60).2.1 - (MD.runTwoCalls 0 50 60).1 <
      MD.MIN_REQUEST_INTERVAL := by
  decide

/-- C7 (amended): every call dispatches at least the minimum interval
after the checkpoint it read; and when the second call begins only
after the first call's fetch has been dispatched (no overlap with the
wait), the two dispatches are at least the minimum interval apart. -/
theorem rateLimit_gate_min_interval (last0 s1 s2 : Nat)
    (h1 : last0 ≤ s1)
    (hseq : (MD.runTwoCalls last0 s1 s2).1 ≤ s2) :
    last0 + MD.MIN_REQUEST_INTERVAL ≤ (MD.runTwoCalls last0 s1 s2).1 ∧
    (MD.runTwoCalls last0 s1 s2).1 + MD.MIN_REQUEST_INTERVAL ≤
      (MD.runTwoCalls last0 s1 s2).2.1 := by
  simp only [MD.runTwoCalls, MD.gateWake, MD.MIN_REQUEST_INTERVAL] at *
  split_ifs at * <;> simp_all <;> omega

/-- Witness for C7 (amended): sequential calls at 300 ms and 600 ms from
checkpoint 0. -/
theorem rateLimit_gate_min_interval_witness :
    0 + MD.MIN_REQUEST_INTERVAL ≤ (MD.runTwoCalls 0 300 600).1 ∧
    (MD.runTwoCalls 0 300 600).1 + MD.MIN_REQUEST_INTERVAL ≤
      (MD.runTwoCalls 0 300 600).2.1 :=
  rateLimit_gate_min_interval 0 300 600 (by decide) (by decide)

/-- After an upsert keyed by `manhwaId`, every progress row for
`manhwaId` carries exactly the payload built from the `updates`
argument (with the fixed defaults for absent fields). -/
theorem updateProgress_mem_fields (db : Store.DB) (id : String)
    (u : Store.ProgressUpdates) (f : String) (r : Store.ProgressRow)
    (hr : r ∈ ((Store.updateProgress db id u f).1).reading_progress)
    (hid : r.manhwa_id = id) :
    r.status = jsOrStr u.status "Plan to Read" ∧
    r.last_chapter = Store.jsNullishNat u.last_chapter 0 ∧
    r.rating = Store.jsNullishNat u.rating 0 ∧
    r.notes = Store.jsNullishStr u.notes "" := by
  unfold Store.updateProgress at hr
  by_cases h : db.reading_progress.any (fun x => x.manhwa_id == id)
  · simp only [h, if_true] at hr
    rcases List.mem_map.mp hr with ⟨x, hx, hfx⟩
    by_cases hxid : x.manhwa_id == id
    · rw [if_pos hxid] at hfx
      subst hfx
      exact ⟨rfl, rfl, rfl, rfl⟩
    · rw [if_neg hxid] at hfx
      subst hfx
      exact absurd (by simp [hid]) hxid
  · have hb : db.reading_progress.any (fun x => x.manhwa_id == id) = false := by
      simpa using h
    simp only [hb, Bool.false_eq_true, if_false] at hr
    rcases List.mem_append.mp hr with hr | hr
    · rw [List.any_eq_false] at hb
      exact absurd (by simp [hid]) (hb r hr)
    · rcases List.mem_singleton.mp hr with rfl
      exact ⟨rfl, rfl, rfl, rfl⟩

/-- An upsert keyed by `manhwaId` leaves at most one progress row for
`manhwaId`: exactly one when the table previously held at most one. -/
theorem updateProgress_countP (db : Store.DB) (id : String)
    (u : Store.ProgressUpdates) (f : String)
    (huniq : db.reading_progress.countP (fun r => r.manhwa_id == id) ≤ 1) :
    ((Store.updateProgress db id u f).1).reading_progress.countP
      (fun r => r.manhwa_id == id) = 1 := by
  unfold Store.updateProgress
  by_cases h : db.reading_progress.any (fun x => x.manhwa_id == id)
  · simp only [h, if_true]
    rw [List.countP_map]
    have hcong : db.reading_progress.countP
        ((fun r : Store.ProgressRow => r.manhwa_id == id) ∘
          (fun r => if r.manhwa_id == id then
            { r with status := jsOrStr u.status "Plan to Read",
                     last_chapter := Store.jsNullishNat u.last_chapter 0,
                     rating := Store.jsNullishNat u.rating 0,
                     notes := Store.jsNullishStr u.notes "" }
          else r)) =
        db.reading_progress.countP (fun r => r.manhwa_id == id) := by
      apply List.countP_congr
      intro x _
      simp only [Function.comp_apply]
      by_cases hxid : x.manhwa_id = id
      · simp [hxid]
      · simp [hxid]
    rw [hcong]
    have hpos : 0 < db.reading_progress.countP (fun r => r.manhwa_id == id) :=
      List.countP_pos_iff.mpr (List.any_eq_true.mp h)
    omega
  · have hb : db.reading_progress.any (fun x => x.manhwa_id == id) = false := by
      simpa using h
    simp only [hb, Bool.false_eq_true, if_false]
    rw [List.countP_append]
    have hzero : db.reading_progress.countP (fun r => r.manhwa_id == id) = 0 :=
      List.countP_eq_zero.mpr (List.any_eq_false.mp hb)
    simp [hzero, List.countP_cons]

/-- C3: two successive `updateProgress` calls for the same entry id
leave exactly one progress row keyed by that id, and its status,
last_chapter, rating and notes are the values passed in the second
call (stated for a second call that passes every field). -/
theorem updateProgress_upsert_latest_wins (db : Store.DB) (id f1 f2 : String)
    (u1 u2 : Store.ProgressUpdates) (s2 nt2 : String) (lc2 rt2 : Nat)
    (huniq : db.reading_progress.countP (fun r => r.manhwa_id == id) ≤ 1)
    (hs : u2.status = some s2) (hsne : s2 ≠ "")
    (hlc : u2.last_chapter = some lc2) (hrt : u2.rating = some rt2)
    (hnt : u2.notes = some nt2) :
    ((Store.updateProgress (Store.updateProgress db id u1 f1).1 id u2 f2).1).reading_progress.countP
        (fun r => r.manhwa_id == id) = 1 ∧
    ∀ r ∈ ((Store.updateProgress (Store.updateProgress db id u1 f1).1 id u2 f2).1).reading_progress,
      r.manhwa_id = id →
        r.status = s2 ∧ r.last_chapter = lc2 ∧ r.rating = rt2 ∧ r.notes = nt2 := by
  have h1 : ((Store.updateProgress db id u1 f1).1).reading_progress.countP
      (fun r => r.manhwa_id == id) = 1 := updateProgress_countP db id u1 f1 huniq
  refine ⟨updateProgress_countP _ id u2 f2 (by omega), ?_⟩
  intro r hr hid
  have hf := updateProgress_mem_fields _ id u2 f2 r hr hid
  rw [hs, hlc, hrt, hnt] at hf
  simpa [jsOrStr, Store.jsNullishNat, Store.jsNullishStr, hsne] using hf

/-- Witness for C3: two calls on an empty store. -/
theorem updateProgress_upsert_latest_wins_witness :
    ((Store.updateProgress
        (Store.updateProgress ⟨[], []⟩ "m1" ⟨some "Reading", some 3, some 7, some "a"⟩ "p1").1
        "m1" ⟨some "Completed", some 9, some 10, some "b"⟩ "p2").1).reading_progress.countP
      (fun r => r.manhwa_id == "m1") = 1 :=
  (updateProgress_upsert_latest_wins ⟨[], []⟩ "m1" "p1" "p2"
    ⟨some "Reading", some 3, some 7, some "a"⟩
    ⟨some "Completed", some 9, some 10, some "b"⟩
    "Completed" "b" 9 10
    (by decide) rfl (by decide) rfl rfl rfl).1

/-- C10: `updateProgress` builds its payload from `updates` alone: for
any prior store contents, a field omitted from `updates` ends up at its
fixed default in every progress row for the entry id — status
'Plan to Read', last_chapter 0, rating 0, notes ''. -/
theorem updateProgress_defaults_override (db : Store.DB) (id f : String)
    (u : Store.ProgressUpdates) (r : Store.ProgressRow)
    (hr : r ∈ ((Store.updateProgress db id u f).1).reading_progress)
    (hid : r.manhwa_id = id) :
    (u.status = none → r.status = "Plan to Read") ∧
    (u.last_chapter = none → r.last_chapter = 0) ∧
    (u.rating = none → r.rating = 0) ∧
    (u.notes = none → r.notes = "") := by
  obtain ⟨hst, hlc, hrt, hnt⟩ := updateProgress_mem_fields db id u f r hr hid
  refine ⟨fun h => ?_, fun h => ?_, fun h => ?_, fun h => ?_⟩
  · rw [hst, h]; rfl
  · rw [hlc, h]; rfl
  · rw [hrt, h]; rfl
  · rw [hnt, h]; rfl

/-- Witness for C10: a store already holding a fully-populated row for
the entry, updated with every field omitted. -/
theorem updateProgress_defaults_override_witness :
    (⟨"p1", "m1", "Reading", 42, 9, "old notes"⟩ : Store.ProgressRow).manhwa_id = "m1" ∧
    ∀ r ∈ ((Store.updateProgress
        ⟨[], [⟨"p1", "m1", "Reading", 42, 9, "old notes"⟩]⟩ "m1"
        ⟨none, none, none, none⟩ "p2").1).reading_progress,
      r.manhwa_id = "m1" → r.status = "Plan to Read" := by
  refine ⟨rfl, ?_⟩
  intro r hr hid
  exact (updateProgress_defaults_override
    ⟨[], [⟨"p1", "m1", "Reading", 42, 9, "old notes"⟩]⟩ "m1" "p2"
    ⟨none, none, none, none⟩ r hr hid).1 rfl

/-- C4 counterexample: a store holding one entry `m1` and its progress
row.  When the progress delete reports an error (which the code only
logs) and the entry delete succeeds, `removeFromLibrary` completes
normally (no throw) yet leaves the progress row pointing at the deleted
entry — the orphan state the claim says is never produced. -/
theorem removeFromLibrary_orphan_counterexample :
    Store.noOrphanRows
      ⟨[⟨"m1", "u1", "s1", "t", "", "", none⟩],
       [⟨"p1", "m1", "Reading", 3, 5, ""⟩]⟩ = true ∧
    (Store.removeFromLibrary
      ⟨[⟨"m1", "u1", "s1", "t", "", "", none⟩],
       [⟨"p1", "m1", "Reading", 3, 5, ""⟩]⟩ "m1" ⟨true, false⟩).2 = false ∧
    Store.noOrphanRows
      (Store.removeFromLibrary
        ⟨[⟨"m1", "u1", "s1", "t", "", "", none⟩],
         [⟨"p1", "m1", "Reading", 3, 5, ""⟩]⟩ "m1" ⟨true, false⟩).1 = false := by
  decide

/-- C4 (amended): when the progress delete does not fail, the ordering
of the two deletes preserves referential integrity: from a store with
no orphaned progress rows, `removeFromLibrary` — whether it completes
normally or throws on the entry delete — never leaves a progress row
referencing a nonexistent entry id.  (When the progress delete fails,
its error is only logged, the entry delete still runs, and an orphan
can remain.) -/
theorem removeFromLibrary_no_orphan_of_progress_delete_ok (db : Store.DB)
    (id : String) (o : Store.DeleteOutcome)
    (h : Store.noOrphanRows db = true)
    (hp : o.progressDeleteFails = false) :
    Store.noOrphanRows (Store.removeFromLibrary db id o).1 = true := by
  unfold Store.removeFromLibrary
  rw [hp]
  simp only [Bool.false_eq_true, if_false]
  unfold Store.noOrphanRows at h ⊢
  rw [List.all_eq_true] at h
  by_cases hm : o.manhwaDeleteFails
  · simp only [hm, if_true]
    rw [List.all_eq_true]
    intro r hr
    exact h r (List.mem_filter.mp hr).1
  · simp only [hm, Bool.false_eq_true, if_false]
    rw [List.all_eq_true]
    intro r hr
    rcases List.mem_filter.mp hr with ⟨hrmem, hrid⟩
    rcases List.any_eq_true.mp (h r hrmem) with ⟨mr, hmr, hmrid⟩
    refine List.any_eq_true.mpr ⟨mr, List.mem_filter.mpr ⟨hmr, ?_⟩, hmrid⟩
    have : mr.id = r.manhwa_id := by simpa using hmrid
    simp only [Bool.not_eq_eq_eq_not, Bool.not_true, beq_eq_false_iff_ne]
    intro hcontra
    rw [hcontra] at this
    rw [← this] at hrid
    simp at hrid

/-- Witness for C4 (amended): both deletes succeed on a two-row store. -/
theorem removeFromLibrary_no_orphan_witness :
    Store.noOrphanRows
      (Store.removeFromLibrary
        ⟨[⟨"m1", "u1", "s1", "t", "", "", none⟩],
         [⟨"p1", "m1", "Reading", 3, 5, ""⟩]⟩ "m1" ⟨false, false⟩).1 = true :=
  removeFromLibrary_no_orphan_of_progress_delete_ok
    ⟨[⟨"m1", "u1", "s1", "t", "", "", none⟩],
     [⟨"p1", "m1", "Reading", 3, 5, ""⟩]⟩ "m1" ⟨false, false⟩ (by decide) rfl

/-- `addProgressIfMissing` never touches the `manhwa` table. -/
theorem addProgressIfMissing_manhwa (db : Store.DB) (a b c : String) :
    (Store.addProgressIfMissing db a b c).manhwa = db.manhwa := by
  unfold Store.addProgressIfMissing
  split <;> rfl

/-- The `manhwa` row inserted by `addToLibrary` when no entry for the
`(user_id, source_id)` pair exists. -/
def insertedManhwaRow (userId f : String) (m : Store.ManhwaInput) : Store.ManhwaRow :=
  ⟨f, userId, m.source_id, m.title, m.cover_url, m.description,
   Store.jsOrNullNat m.lastChapter⟩

/-- `addToLibrary` when `maybeSingle()` finds an existing entry. -/
theorem addToLibrary_found (db : Store.DB) (userId status f g : String)
    (m : Store.ManhwaInput) (row : Store.ManhwaRow)
    (hfind : db.manhwa.find?
      (fun r => r.user_id == userId && r.source_id == m.source_id) = some row) :
    Store.addToLibrary db userId m status f g =
      (Store.addProgressIfMissing db row.id status g, row.id) := by
  unfold Store.addToLibrary
  rw [hfind]

/-- `addToLibrary` when `maybeSingle()` finds no entry. -/
theorem addToLibrary_notfound (db : Store.DB) (userId status f g : String)
    (m : Store.ManhwaInput)
    (hfind : db.manhwa.find?
      (fun r => r.user_id == userId && r.source_id == m.source_id) = none) :
    Store.addToLibrary db userId m status f g =
      (Store.addProgressIfMissing
        ⟨db.manhwa ++ [insertedManhwaRow userId f m], db.reading_progress⟩
        f status g, f) := by
  unfold Store.addToLibrary
  rw [hfind]
  rfl

/-- C5: calling `addToLibrary` twice with the same `source_id` for the
same user returns the same database id both times, inserts no entry row
on the second call, and leaves exactly one `(user_id, source_id)` entry
when none existed before (in general: the count of such entries after
the first call is the `max` of the prior count and 1). -/
theorem addToLibrary_idempotent_source_id (db : Store.DB)
    (userId status f1 g1 f2 g2 : String) (m : Store.ManhwaInput) :
    (Store.addToLibrary (Store.addToLibrary db userId m status f1 g1).1
        userId m status f2 g2).2 =
      (Store.addToLibrary db userId m status f1 g1).2 ∧
    (Store.addToLibrary (Store.addToLibrary db userId m status f1 g1).1
        userId m status f2 g2).1.manhwa =
      (Store.addToLibrary db userId m status f1 g1).1.manhwa ∧
    (Store.addToLibrary db userId m status f1 g1).1.manhwa.countP
        (fun x => x.user_id == userId && x.source_id == m.source_id) =
      max (db.manhwa.countP
        (fun x => x.user_id == userId && x.source_id == m.source_id)) 1 := by
  cases hfind : db.manhwa.find?
      (fun r => r.user_id == userId && r.source_id == m.source_id) with
  | some row =>
      have e1 := addToLibrary_found db userId status f1 g1 m row hfind
      have h1manhwa : (Store.addToLibrary db userId m status f1 g1).1.manhwa =
          db.manhwa := by
        rw [e1]
        exact addProgressIfMissing_manhwa ..
      have hfind2 : (Store.addToLibrary db userId m status f1 g1).1.manhwa.find?
          (fun r => r.user_id == userId && r.source_id == m.source_id) = some row := by
        rw [h1manhwa, hfind]
      have e2 := addToLibrary_found (Store.addToLibrary db userId m status f1 g1).1
        userId status f2 g2 m row hfind2
      refine ⟨?_, ?_, ?_⟩
      · rw [e2, e1]
      · rw [e2, addProgressIfMissing_manhwa]
      · rw [h1manhwa]
        have hpos : 0 < db.manhwa.countP
            (fun x => x.user_id == userId && x.source_id == m.source_id) :=
          List.countP_pos_iff.mpr
            ⟨row, List.mem_of_find?_eq_some hfind,
             List.find?_some
               (p := fun r : Store.ManhwaRow =>
                 r.user_id == userId && r.source_id == m.source_id) hfind⟩
        exact (Nat.max_eq_left hpos).symm
  | none =>
      have hzero : db.manhwa.countP
          (fun x => x.user_id == userId && x.source_id == m.source_id) = 0 :=
        List.countP_eq_zero.mpr (List.find?_eq_none.mp hfind)
      have e1 := addToLibrary_notfound db userId status f1 g1 m hfind
      have h1manhwa : (Store.addToLibrary db userId m status f1 g1).1.manhwa =
          db.manhwa ++ [insertedManhwaRow userId f1 m] := by
        rw [e1]
        exact addProgressIfMissing_manhwa ..
      have hfind2 : (Store.addToLibrary db userId m status f1 g1).1.manhwa.find?
          (fun r => r.user_id == userId && r.source_id == m.source_id) =
          some (insertedManhwaRow userId f1 m) := by
        rw [h1manhwa, List.find?_append, hfind]
        simp [List.find?, insertedManhwaRow]
      have e2 := addToLibrary_found (Store.addToLibrary db userId m status f1 g1).1
        userId status f2 g2 m (insertedManhwaRow userId f1 m) hfind2
      refine ⟨?_, ?_, ?_⟩
      · rw [e2, e1]
        rfl
      · rw [e2, addProgressIfMissing_manhwa]
      · rw [h1manhwa, List.countP_append, hzero]
        simp [List.countP_cons, insertedManhwaRow]

end DoofTrack
